import Mathlib

/-!
Verification of the vehicle-management API (FastAPI app under `app/`).

The repository's `app/auth.py` module (token issuer, token validator,
access guard, password-hash helpers) is imported by `app/main.py` but its
source is not in the repository snapshot; those components are modelled
from the specification (sections 4.1-4.5), as marked on each definition.
Everything else is translated directly from `app/main.py`, `app/crud.py`,
`app/models.py` and `app/schemas.py`.

Timestamps are natural numbers of seconds; the token TTL is
`ACCESS_TOKEN_EXPIRE_MINUTES` minutes, as in `main.py`'s
`timedelta(minutes=auth.ACCESS_TOKEN_EXPIRE_MINUTES)`.
-/

/-- Modelled from the spec (4.1): the Password Hasher is the external
passlib bcrypt context configured at `app/crud.py` line 7; its code is not
part of the repository. A digest carries an algorithm scheme tag, the
random salt, and a tag that the model keeps injective in the plaintext
(standing in for the bcrypt MAC, whose collisions the spec discounts as
negligible). -/
structure Digest where
  scheme : String
  salt : Nat
  tag : String
deriving Repr, DecidableEq

/-- Modelled from the spec (4.1): `hash(plaintext) -> digest`
(`auth.get_password_hash` / `pwd_context.hash`). The salt is the
randomness injected by the environment, passed explicitly. -/
def get_password_hash (salt : Nat) (plaintext : String) : Digest :=
  { scheme := "bcrypt", salt := salt, tag := plaintext }

/-- Modelled from the spec (4.1): `verify(plaintext, digest) -> bool`
(`auth.verify_password` / `pwd_context.verify`); total, returns `false`
on mismatch or on a digest whose scheme is not recognised. -/
def verify_password (plaintext : String) (d : Digest) : Bool :=
  d.scheme == "bcrypt" && d.tag == plaintext

/-- User record, from `app/models.py` (`Usuario`: id primary key,
username unique, hashed_password). -/
structure Usuario where
  id : Nat
  username : String
  hashed_password : Digest
deriving Repr, DecidableEq

/-- Vehicle record, from `app/models.py` (`Veiculo`: id primary key,
nome, modelo, status with column default "DESCONECTADO"). -/
structure Veiculo where
  id : Nat
  nome : String
  modelo : String
  status : String
deriving Repr, DecidableEq

/-- Request body for vehicle creation, from `app/schemas.py`
(`VeiculoCreate`); the `status` field has the pydantic default
"DESCONECTADO", applied when the request omits it. -/
structure VeiculoCreate where
  nome : String
  modelo : String
  status : String := "DESCONECTADO"
deriving Repr, DecidableEq

/-- Response body for user creation, from `app/schemas.py` (`Usuario`
schema: only `id` and `username`; FastAPI's `response_model` filters the
returned ORM object down to these fields). -/
structure UsuarioOut where
  id : Nat
  username : String
deriving Repr, DecidableEq


/-- Token claims, from the spec (3): subject and expiry.  `main.py` line
90 puts only `sub` in the data, and the issuer adds `exp`. -/
structure Claims where
  sub : String
  exp : Nat
deriving Repr, DecidableEq

/-- Modelled from the spec (4.2): the signature/MAC over the claims,
computed with the signing secret; modelled as the pair so that any change
of secret or claims changes the signature. -/
structure Sig where
  key : String
  signed : Claims
deriving Repr, DecidableEq

def sign (secret : String) (c : Claims) : Sig :=
  { key := secret, signed := c }

/-- A structurally valid token: claims plus signature. -/
structure Token where
  claims : Claims
  sig : Sig
deriving Repr, DecidableEq

/-- A token string on the wire: either it parses into claims+signature or
it is junk that cannot be parsed. -/
inductive Wire where
  | token (t : Token)
  | junk (s : String)
deriving Repr, DecidableEq

def parseWire : Wire → Option Token
  | .token t => some t
  | .junk _ => none

/-- Error taxonomy of the Token Validator, from the spec (4.3, 7). -/
inductive AuthError where
  | Malformed
  | BadSignature
  | Expired
deriving Repr, DecidableEq

/-- Modelled from the spec: signing secret of the missing `app/auth.py`
(`SECRET_KEY`), immutable configuration. -/
def SECRET_KEY : String := "secret-key"

/-- Modelled from the spec: `auth.ACCESS_TOKEN_EXPIRE_MINUTES` of the
missing `app/auth.py` (spec 4.2: short default, minutes). -/
def ACCESS_TOKEN_EXPIRE_MINUTES : Nat := 30

/-- Token lifetime in seconds: `timedelta(minutes=...)` at `main.py`
line 88. -/
def TTL : Nat := ACCESS_TOKEN_EXPIRE_MINUTES * 60

/-- Modelled from the spec (4.2): `auth.create_access_token` of the
missing `app/auth.py`, called at `main.py` lines 89-91 with
`data=(sub := username)` and `expires_delta`: builds the claims
`(sub, exp = now + expires_delta)` and signs them. -/
def create_access_token (sub : String) (now : Nat)
    (expires_delta : Nat) : Token :=
  let c : Claims := { sub := sub, exp := now + expires_delta }
  { claims := c, sig := sign SECRET_KEY c }

/-- The token the service issues for a subject at a time: the
`create_access_token` call of `main.py` with the configured TTL, put on
the wire. -/
def issue (sub : String) (now : Nat) : Wire :=
  .token (create_access_token sub now TTL)

/-- Modelled from the spec (4.3): the Token Validator of the missing
`app/auth.py`.  Steps in order: parse, signature check, expiry check
(`now >= expires_at` is expired, so validity requires `now` strictly
before `exp`), then return the subject. -/
def validate (secret : String) (w : Wire) (now : Nat) :
    Except AuthError String :=
  match parseWire w with
  | none => .error .Malformed
  | some t =>
    if t.sig = sign secret t.claims then
      if t.claims.exp ≤ now then .error .Expired
      else .ok t.claims.sub
    else .error .BadSignature

/-- True when the validator accepts the wire token at `now`. -/
def accepted (secret : String) (w : Wire) (now : Nat) : Bool :=
  match validate secret w now with
  | .ok _ => true
  | .error _ => false

/-- The caller-visible error of a rejected request, from
`fastapi.HTTPException`: status code, detail message, optional
WWW-Authenticate header. -/
structure HTTPError where
  status : Nat
  detail : String
  www_authenticate : Option String
deriving Repr, DecidableEq

/-- The 401 raised by the login endpoint, `main.py` lines 83-87. -/
def invalidCredentials401 : HTTPError :=
  { status := 401
    detail := "Usuário ou senha incorretos"
    www_authenticate := some "Bearer" }

/-- Modelled from the spec (4.5, 7): the uniform "unauthenticated"
rejection of the Access Guard in the missing `app/auth.py`; one outward
signal for missing header, malformed token, bad signature, expiry and
unknown subject alike. -/
def credentialsException : HTTPError :=
  { status := 401
    detail := "unauthenticated"
    www_authenticate := some "Bearer" }

/-- The 404 of the vehicle endpoints, `main.py` line 315. -/
def veiculoNaoEncontrado : HTTPError :=
  { status := 404
    detail := "Veículo não encontrado"
    www_authenticate := none }

/-- The 500 produced when the unique constraint on `usuarios.username`
(`app/models.py` line 17) aborts the commit of a duplicate insert;
`criar_usuario` does not catch it. -/
def integrityError500 : HTTPError :=
  { status := 500
    detail := "IntegrityError"
    www_authenticate := none }

/-- `crud.get_usuario_by_username` (`app/crud.py` lines 41-42): first
user record whose username matches. -/
def get_usuario_by_username (db : List Usuario) (username : String) :
    Option Usuario :=
  db.find? (fun r => r.username == username)

/-- Modelled from the spec (4.4): `auth.authenticate_user` of the missing
`app/auth.py`, called at `main.py` line 81: look the username up, check
the password against the stored digest, and return the user on success;
an absent user and a wrong password both yield no user. -/
def authenticate_user (db : List Usuario) (username password : String) :
    Option Usuario :=
  match get_usuario_by_username db username with
  | none => none
  | some user =>
    if verify_password password user.hashed_password then some user
    else none

/-- Modelled from the spec (4.5): `auth.get_current_active_user` of the
missing `app/auth.py`, the Access Guard every vehicle endpoint depends
on.  A missing or unparseable Authorization header, a validator failure,
and a subject that no longer resolves in the Credential Store all reject
with the same signal; only a validated, resolved user is admitted. -/
def get_current_active_user (secret : String) (udb : List Usuario)
    (hdr : Option Wire) (now : Nat) : Except HTTPError Usuario :=
  match hdr with
  | none => .error credentialsException
  | some w =>
    match validate secret w now with
    | .error _ => .error credentialsException
    | .ok sub =>
      match get_usuario_by_username udb sub with
      | none => .error credentialsException
      | some user => .ok user

/-- The success body of the login endpoint, from `app/schemas.py`
(`Token`): exactly the fields `access_token` and `token_type`. -/
structure TokenOut where
  access_token : Wire
  token_type : String
deriving Repr, DecidableEq

/-- `login_for_access_token`, `main.py` lines 81-92: authenticate, raise
the 401 on failure, otherwise issue a token for the user's username with
the configured expiry and return it with token type "bearer". -/
def login_for_access_token (db : List Usuario) (username password : String)
    (now : Nat) : Except HTTPError TokenOut :=
  match authenticate_user db username password with
  | none => .error invalidCredentials401
  | some user =>
    .ok { access_token := issue user.username now, token_type := "bearer" }

/-- Autoincrement of the `usuarios` primary key: one more than the
largest id in the table. -/
def nextUsuarioId (db : List Usuario) : Nat :=
  db.foldr (fun r acc => max r.id acc) 0 + 1

/-- `criar_usuario`, `main.py` lines 140-145: hash the password, insert
the record and commit; the unique constraint on username
(`app/models.py`) aborts a duplicate insert.  The response is filtered by
`response_model=schemas.Usuario` down to id and username. -/
def criar_usuario (salt : Nat) (db : List Usuario)
    (username password : String) :
    List Usuario × Except HTTPError UsuarioOut :=
  if db.any (fun r => r.username == username) then
    (db, .error integrityError500)
  else
    let novo : Usuario :=
      { id := nextUsuarioId db
        username := username
        hashed_password := get_password_hash salt password }
    (db ++ [novo], .ok { id := novo.id, username := novo.username })

/-- Autoincrement of the `veiculos` primary key. -/
def nextVeiculoId (db : List Veiculo) : Nat :=
  db.foldr (fun r acc => max r.id acc) 0 + 1

/-- `listar_veiculos`, `main.py` lines 180-215: guard, then return all
vehicles. -/
def listar_veiculos (secret : String) (udb : List Usuario)
    (hdr : Option Wire) (now : Nat) (vdb : List Veiculo) :
    List Veiculo × Except HTTPError (List Veiculo) :=
  match get_current_active_user secret udb hdr now with
  | .error e => (vdb, .error e)
  | .ok _ => (vdb, .ok vdb)

/-- `criar_veiculo`, `main.py` lines 217-272: guard, then insert a row
built from the request body (`model_dump`) and return it. -/
def criar_veiculo (secret : String) (udb : List Usuario)
    (hdr : Option Wire) (now : Nat) (vdb : List Veiculo)
    (v : VeiculoCreate) : List Veiculo × Except HTTPError Veiculo :=
  match get_current_active_user secret udb hdr now with
  | .error e => (vdb, .error e)
  | .ok _ =>
    let novo : Veiculo :=
      { id := nextVeiculoId vdb
        nome := v.nome
        modelo := v.modelo
        status := v.status }
    (vdb ++ [novo], .ok novo)

/-- `obter_veiculo`, `main.py` lines 274-316: guard, look the id up, 404
when absent. -/
def obter_veiculo (secret : String) (udb : List Usuario)
    (hdr : Option Wire) (now : Nat) (vdb : List Veiculo)
    (vid : Nat) : List Veiculo × Except HTTPError Veiculo :=
  match get_current_active_user secret udb hdr now with
  | .error e => (vdb, .error e)
  | .ok _ =>
    match vdb.find? (fun w => w.id == vid) with
    | none => (vdb, .error veiculoNaoEncontrado)
    | some v => (vdb, .ok v)

/-- The committed effect of `veiculo.status = status; db.commit()` on the
row whose primary key matches (`id` is the table's primary key, so at
most one row matches). -/
def setStatus (vid : Nat) (s : String) (w : Veiculo) : Veiculo :=
  if w.id == vid then { w with status := s } else w

/-- `atualizar_status`, `main.py` lines 318-372: guard, look the id up,
404 when absent, otherwise overwrite that row's status and return the
refreshed row. -/
def atualizar_status (secret : String) (udb : List Usuario)
    (hdr : Option Wire) (now : Nat) (vdb : List Veiculo)
    (vid : Nat) (s : String) : List Veiculo × Except HTTPError Veiculo :=
  match get_current_active_user secret udb hdr now with
  | .error e => (vdb, .error e)
  | .ok _ =>
    match vdb.find? (fun w => w.id == vid) with
    | none => (vdb, .error veiculoNaoEncontrado)
    | some v =>
      (vdb.map (setStatus vid s), .ok { v with status := s })

/-- `excluir_veiculo`, `main.py` lines 374-413: guard, look the id up,
404 when absent, otherwise delete the row and return the success
message. -/
def excluir_veiculo (secret : String) (udb : List Usuario)
    (hdr : Option Wire) (now : Nat) (vdb : List Veiculo)
    (vid : Nat) : List Veiculo × Except HTTPError String :=
  match get_current_active_user secret udb hdr now with
  | .error e => (vdb, .error e)
  | .ok _ =>
    match vdb.find? (fun w => w.id == vid) with
    | none => (vdb, .error veiculoNaoEncontrado)
    | some _ =>
      (vdb.filter (fun w => !(w.id == vid)),
       .ok "Veículo excluído com sucesso")

/-! ## Theorems -/

/-- C1: every protected vehicle operation (list, create, get by id,
update status, delete) runs only after the Access Guard admitted the
request; whenever the guard rejects, the operation returns the guard's
rejection and the vehicle store is unchanged. -/
theorem guard_gates_protected_ops (secret : String) (udb : List Usuario)
    (hdr : Option Wire) (now : Nat) (vdb : List Veiculo)
    (v : VeiculoCreate) (vid : Nat) (s : String) (e : HTTPError)
    (h : get_current_active_user secret udb hdr now = .error e) :
    listar_veiculos secret udb hdr now vdb = (vdb, .error e) ∧
    criar_veiculo secret udb hdr now vdb v = (vdb, .error e) ∧
    obter_veiculo secret udb hdr now vdb vid = (vdb, .error e) ∧
    atualizar_status secret udb hdr now vdb vid s = (vdb, .error e) ∧
    excluir_veiculo secret udb hdr now vdb vid = (vdb, .error e) := by
  unfold listar_veiculos criar_veiculo obter_veiculo atualizar_status
    excluir_veiculo
  rw [h]
  exact ⟨rfl, rfl, rfl, rfl, rfl⟩

theorem guard_gates_protected_ops_witness :
    get_current_active_user SECRET_KEY [] none 0 =
      .error credentialsException ∧
    listar_veiculos SECRET_KEY [] none 0 [] = ([], .error credentialsException) := by
  refine ⟨rfl, ?_⟩
  exact (guard_gates_protected_ops SECRET_KEY [] none 0 []
    { nome := "a", modelo := "b" } 1 "s" credentialsException rfl).1

/-- C2: validating a token issued for subject `s` at time `t0`, at that
same time `t0`, succeeds and returns exactly `s`. -/
theorem issue_validate_roundtrip (s : String) (t0 : Nat) :
    validate SECRET_KEY (issue s t0) t0 = .ok s := by
  have h1 : ¬ (t0 + TTL ≤ t0) := by
    have h0 : TTL = 1800 := by rfl
    omega
  simp [validate, issue, create_access_token, parseWire, h1]

/-- C3: a token issued at `t0` is rejected as Expired when validated at
`t0 + TTL` and accepted at `t0 + TTL - 1`; in general a parsed token is
accepted exactly when its signature verifies against the signing secret
and the validation time is strictly before its `exp` claim. -/
theorem expiry_boundary_and_validity (s : String) (t0 : Nat) :
    validate SECRET_KEY (issue s t0) (t0 + TTL) = .error .Expired ∧
    validate SECRET_KEY (issue s t0) (t0 + TTL - 1) = .ok s ∧
    ∀ (t : Token) (now : Nat),
      accepted SECRET_KEY (.token t) now = true ↔
        (t.sig = sign SECRET_KEY t.claims ∧ now < t.claims.exp) := by
  have hT : TTL = 1800 := by rfl
  refine ⟨?_, ?_, ?_⟩
  · simp [validate, issue, create_access_token, parseWire]
  · have h1 : ¬ (t0 + TTL ≤ t0 + TTL - 1) := by omega
    simp [validate, issue, create_access_token, parseWire, h1]
  · intro t now
    by_cases hs : t.sig = sign SECRET_KEY t.claims
    · by_cases he : t.claims.exp ≤ now
      · simp [accepted, validate, parseWire, hs, he]
      · simp [accepted, validate, parseWire, hs, he]
        omega
    · simp [accepted, validate, parseWire, hs]

/-- C4: a login with an unknown username and a login with a known
username but wrong password produce the identical caller-visible error:
same status 401, same detail message, same WWW-Authenticate Bearer
header. -/
theorem login_indistinguishable (db : List Usuario) (u p : String)
    (now : Nat) :
    (get_usuario_by_username db u = none →
      login_for_access_token db u p now = .error invalidCredentials401) ∧
    (∀ r, get_usuario_by_username db u = some r →
      verify_password p r.hashed_password = false →
      login_for_access_token db u p now = .error invalidCredentials401) := by
  constructor
  · intro h
    simp [login_for_access_token, authenticate_user, h]
  · intro r h hv
    simp [login_for_access_token, authenticate_user, h, hv]

/-- A one-user fixture store: alice with the digest of "s3cret". -/
def dbAlice : List Usuario :=
  [{ id := 1, username := "alice",
     hashed_password := get_password_hash 0 "s3cret" }]

theorem login_indistinguishable_witness :
    login_for_access_token dbAlice "bob" "s3cret" 0 =
      .error invalidCredentials401 ∧
    login_for_access_token dbAlice "alice" "wrong" 0 =
      .error invalidCredentials401 := by
  constructor
  · exact (login_indistinguishable dbAlice "bob" "s3cret" 0).1 (by decide)
  · exact (login_indistinguishable dbAlice "alice" "wrong" 0).2
      { id := 1, username := "alice",
        hashed_password := get_password_hash 0 "s3cret" }
      (by decide) (by decide)

/-- C5: verifying a plaintext against its own hash succeeds; verifying a
different plaintext against that hash fails; and a digest with an
unrecognised scheme makes verify return false rather than raise. -/
theorem hash_verify_contract (salt : Nat) (p p1 p2 : String) (d : Digest) :
    verify_password p (get_password_hash salt p) = true ∧
    (p1 ≠ p2 → verify_password p1 (get_password_hash salt p2) = false) ∧
    (d.scheme ≠ "bcrypt" → verify_password p d = false) := by
  refine ⟨?_, ?_, ?_⟩
  · simp [verify_password, get_password_hash]
  · intro h
    simp [verify_password, get_password_hash]
    exact fun hh => h hh.symm
  · intro h
    simp [verify_password, h]

theorem hash_verify_contract_witness :
    verify_password "s3cret" (get_password_hash 0 "s3cret") = true ∧
    verify_password "a" (get_password_hash 0 "b") = false ∧
    verify_password "a" { scheme := "x", salt := 0, tag := "a" } = false := by
  refine ⟨(hash_verify_contract 0 "s3cret" "a" "b"
      { scheme := "x", salt := 0, tag := "a" }).1,
    (hash_verify_contract 0 "s3cret" "a" "b"
      { scheme := "x", salt := 0, tag := "a" }).2.1 (by decide),
    (hash_verify_contract 0 "s3cret" "a" "b"
      { scheme := "x", salt := 0, tag := "a" }).2.2 (by decide)⟩

/-- C6: a successful login returns exactly the issued token together
with token_type "bearer"; a failed login returns a 401 with detail
"Usuário ou senha incorretos" and a WWW-Authenticate Bearer header. -/
theorem login_response_shape (db : List Usuario) (u p : String)
    (now : Nat) :
    (∀ user, authenticate_user db u p = some user →
      login_for_access_token db u p now =
        .ok { access_token := issue user.username now,
              token_type := "bearer" }) ∧
    (authenticate_user db u p = none →
      login_for_access_token db u p now = .error
        { status := 401
          detail := "Usuário ou senha incorretos"
          www_authenticate := some "Bearer" }) := by
  constructor
  · intro user h
    simp [login_for_access_token, h]
  · intro h
    simp [login_for_access_token, h, invalidCredentials401]

theorem login_response_shape_witness :
    login_for_access_token dbAlice "alice" "s3cret" 7 =
      .ok { access_token := issue "alice" 7, token_type := "bearer" } ∧
    login_for_access_token dbAlice "alice" "wrongpw" 7 = .error
      { status := 401
        detail := "Usuário ou senha incorretos"
        www_authenticate := some "Bearer" } := by
  constructor
  · exact (login_response_shape dbAlice "alice" "s3cret" 7).1
      { id := 1, username := "alice",
        hashed_password := get_password_hash 0 "s3cret" } (by decide)
  · exact (login_response_shape dbAlice "alice" "wrongpw" 7).2 (by decide)

/-- C7: when registration succeeds, the stored record carries exactly the
hash of the supplied password, and the response (`UsuarioOut`, the
`schemas.Usuario` response model) carries only the id and the username,
never the digest or the plaintext. -/
theorem registration_hashes_and_hides (salt : Nat) (db : List Usuario)
    (u p : String) (h : db.any (fun r => r.username == u) = false) :
    (criar_usuario salt db u p).1 =
      db ++ [{ id := nextUsuarioId db, username := u,
               hashed_password := get_password_hash salt p }] ∧
    (criar_usuario salt db u p).2 =
      .ok { id := nextUsuarioId db, username := u } := by
  simp [criar_usuario, h]

theorem registration_hashes_and_hides_witness :
    (criar_usuario 0 [] "alice" "pw").1 =
      [{ id := 1, username := "alice",
         hashed_password := get_password_hash 0 "pw" }] ∧
    (criar_usuario 0 [] "alice" "pw").2 =
      .ok { id := 1, username := "alice" } := by
  have h := registration_hashes_and_hides 0 [] "alice" "pw" (by decide)
  simpa [nextUsuarioId] using h

/-- C8, counterexample to the claim as stated: registering with the empty
username is accepted and creates a record whose username is empty, so the
store reaches a state containing an empty username. -/
theorem empty_username_accepted :
    (criar_usuario 0 [] "" "pw").2 = .ok { id := 1, username := "" } ∧
    ((criar_usuario 0 [] "" "pw").1.any (fun r => r.username == "")) =
      true := by
  exact ⟨rfl, rfl⟩

/-- C8, amended: usernames stay pairwise distinct across registration
(the unique constraint on `usuarios.username` makes a duplicate insert
fail without creating a second record), but nothing rejects an empty
username. -/
theorem usernames_unique_enforced (salt : Nat) (db : List Usuario)
    (u p : String) :
    ((db.map (fun r => r.username)).Nodup →
      ((criar_usuario salt db u p).1.map (fun r => r.username)).Nodup) ∧
    (db.any (fun r => r.username == u) = true →
      criar_usuario salt db u p = (db, .error integrityError500)) := by
  constructor
  · intro hnd
    by_cases hdup : db.any (fun r => r.username == u)
    · simpa [criar_usuario, hdup] using hnd
    · have hu : u ∉ db.map (fun r => r.username) := by
        intro hmem
        rcases List.mem_map.mp hmem with ⟨r, hr, hru⟩
        exact hdup (List.any_eq_true.mpr ⟨r, hr, by simp [hru]⟩)
      simp [criar_usuario, hdup, List.nodup_append, hnd, hu]
  · intro hdup
    simp [criar_usuario, hdup]

theorem usernames_unique_enforced_witness :
    ((criar_usuario 0 dbAlice "bob" "pw2").1.map
        (fun r => r.username)).Nodup ∧
    criar_usuario 0 dbAlice "alice" "pw2" =
      (dbAlice, .error integrityError500) := by
  constructor
  · exact (usernames_unique_enforced 0 dbAlice "bob" "pw2").1 (by decide)
  · exact (usernames_unique_enforced 0 dbAlice "alice" "pw2").2 (by decide)

/-- C9: once the guard has admitted the request, updating the status of
an existing vehicle id rewrites only that row's status — every row keeps
its id, nome and modelo, and rows with a different id are untouched —
while an absent id yields the 404 and leaves the store unchanged. -/
theorem update_status_frame (secret : String) (udb : List Usuario)
    (hdr : Option Wire) (now : Nat) (vdb : List Veiculo) (vid : Nat)
    (s : String) (user : Usuario)
    (hg : get_current_active_user secret udb hdr now = .ok user) :
    (∀ v, vdb.find? (fun w => w.id == vid) = some v →
      (atualizar_status secret udb hdr now vdb vid s).2 =
        .ok { v with status := s } ∧
      (atualizar_status secret udb hdr now vdb vid s).1.length =
        vdb.length ∧
      ∀ (i : Nat) (w : Veiculo), vdb[i]? = some w →
        (atualizar_status secret udb hdr now vdb vid s).1[i]? =
          some (setStatus vid s w) ∧
        (setStatus vid s w).id = w.id ∧
        (setStatus vid s w).nome = w.nome ∧
        (setStatus vid s w).modelo = w.modelo ∧
        (w.id ≠ vid → setStatus vid s w = w)) ∧
    (vdb.find? (fun w => w.id == vid) = none →
      atualizar_status secret udb hdr now vdb vid s =
        (vdb, .error veiculoNaoEncontrado)) := by
  constructor
  · intro v hv
    refine ⟨?_, ?_, ?_⟩
    · simp [atualizar_status, hg, hv]
    · simp [atualizar_status, hg, hv]
    · intro i w hw
      refine ⟨?_, ?_, ?_, ?_, ?_⟩
      · simp [atualizar_status, hg, hv, List.getElem?_map, hw]
      · unfold setStatus
        split <;> rfl
      · unfold setStatus
        split <;> rfl
      · unfold setStatus
        split <;> rfl
      · intro hne
        simp [setStatus, hne]
  · intro hv
    simp [atualizar_status, hg, hv]

/-- The user record of the fixture store. -/
def uAlice : Usuario :=
  { id := 1, username := "alice",
    hashed_password := get_password_hash 0 "s3cret" }

/-- A one-vehicle fixture store. -/
def vdbDemo : List Veiculo :=
  [{ id := 1, nome := "Fusca", modelo := "F", status := "DESCONECTADO" }]

theorem update_status_frame_witness :
    (atualizar_status SECRET_KEY dbAlice (some (issue "alice" 5)) 5
        vdbDemo 1 "CONECTADO").2 =
      .ok { id := 1, nome := "Fusca", modelo := "F",
            status := "CONECTADO" } ∧
    atualizar_status SECRET_KEY dbAlice (some (issue "alice" 5)) 5
        vdbDemo 2 "X" =
      (vdbDemo, .error veiculoNaoEncontrado) := by
  constructor
  · exact ((update_status_frame SECRET_KEY dbAlice (some (issue "alice" 5))
      5 vdbDemo 1 "CONECTADO" uAlice rfl).1
      { id := 1, nome := "Fusca", modelo := "F",
        status := "DESCONECTADO" } rfl).1
  · exact (update_status_frame SECRET_KEY dbAlice (some (issue "alice" 5))
      5 vdbDemo 2 "X" uAlice rfl).2 rfl

/-- C10: once the guard has admitted the request, creating a vehicle
from a request body that omits the status stores and returns the new
record with the default status "DESCONECTADO". -/
theorem create_default_status (secret : String) (udb : List Usuario)
    (hdr : Option Wire) (now : Nat) (vdb : List Veiculo)
    (n m : String) (user : Usuario)
    (hg : get_current_active_user secret udb hdr now = .ok user) :
    criar_veiculo secret udb hdr now vdb { nome := n, modelo := m } =
      (vdb ++ [{ id := nextVeiculoId vdb, nome := n, modelo := m,
                 status := "DESCONECTADO" }],
       .ok { id := nextVeiculoId vdb, nome := n, modelo := m,
             status := "DESCONECTADO" }) := by
  simp [criar_veiculo, hg]

theorem create_default_status_witness :
    criar_veiculo SECRET_KEY dbAlice (some (issue "alice" 5)) 5 []
        { nome := "Uno", modelo := "Mille" } =
      ([{ id := 1, nome := "Uno", modelo := "Mille",
          status := "DESCONECTADO" }],
       .ok { id := 1, nome := "Uno", modelo := "Mille",
             status := "DESCONECTADO" }) := by
  have h := create_default_status SECRET_KEY dbAlice
    (some (issue "alice" 5)) 5 [] "Uno" "Mille" uAlice rfl
  simpa [nextVeiculoId] using h
